import Mathlib

/-!
Verification of the sosdivorce funnel pipeline.

This file is a shallow embedding of the funnel session ledger, the answer
cache, the identity store, and the relevant HTTP handlers of the
repository (src/lib/db.js, src/api/chat.js, src/api/verify-payment.js and
the paid-funnel chat handler).  The embedding models, per funnel UUID, the
content of the `paid_sessions`, `paid_messages`, `unpaid_sessions_with_email`
and `unpaid_messages` tables (both session tables carry a
`UNIQUE (session_uuid)` constraint, so for a fixed UUID each table holds at
most one row, and every ledger operation below touches only the rows of the
UUID it is given), together with the current date's `session_statistics`
row.  Timestamp columns (`created_at`, `paid_at`, `moved_at`,
`email_collected_at`, `last_activity_at`, `email_sent_at`) are not modelled:
no control flow of the embedded functions reads them.
-/

/-- JavaScript string falsiness for nullable text columns: `!x` is true for
both SQL NULL (`none`) and the empty string. -/
def jsFalsyStr (o : Option String) : Bool :=
  match o with
  | none => true
  | some s => s = ""

/-- JavaScript `a || b` for a nullable string `a` with default `b`. -/
def jsOrElse (o : Option String) (d : String) : String :=
  match o with
  | some s => if s = "" then d else s
  | none => d

/-- Code points matched by the JavaScript regex class `\s` (and stripped by
`String.prototype.trim`). -/
def isJsWhitespace (c : Char) : Bool :=
  let n := c.toNat
  n = 9 || n = 10 || n = 11 || n = 12 || n = 13 || n = 32 || n = 160 ||
    n = 0x1680 || (0x2000 ≤ n && n ≤ 0x200a) || n = 0x2028 || n = 0x2029 ||
    n = 0x202f || n = 0x205f || n = 0x3000 || n = 0xfeff

/-- Drop leading whitespace characters. -/
def dropLeadingWs : List Char → List Char
  | [] => []
  | c :: rest => if isJsWhitespace c then dropLeadingWs rest else c :: rest

/-- The `String.prototype.trim` step, on a character list. -/
def trimJsChars (l : List Char) : List Char :=
  (dropLeadingWs (dropLeadingWs l).reverse).reverse

/-- The `String.prototype.trim` step, on strings. -/
def jsTrim (s : String) : String :=
  ⟨trimJsChars s.data⟩

/-- One row of `paid_sessions` (db.js `createPaidSessionsTables`), restricted
to a fixed `session_uuid`, with the `paid_messages` rows owned by it folded
into the `messages` field as (role, content) pairs. -/
structure PaidSessionRow where
  email : Option String
  expertise : Option String
  amount : Nat
  paid : Bool
  paymentIntentId : Option String
  threadId : String
  questionnaireData : Option String
  emailSent : Bool
  firstMessageSent : Bool
  messages : List (String × String)
deriving Repr, DecidableEq

/-- One row of `unpaid_sessions_with_email` (db.js `createUnpaidSessionsTable`)
for a fixed `session_uuid`, with its `unpaid_messages` rows folded in.
`email` is `NOT NULL` in the schema. -/
structure UnpaidSessionRow where
  email : String
  expertise : Option String
  amount : Nat
  paymentIntentId : Option String
  threadId : String
  questionnaireData : Option String
  firstMessageSent : Bool
  paymentAttempts : Nat
  movedToPaid : Bool
  messages : List (String × String)
deriving Repr, DecidableEq

/-- The current date's `session_statistics` row (db.js
`createSessionStatisticsTable`): the three daily conversion counters. -/
structure SessionStats where
  firstMessages : Nat
  emailsCollected : Nat
  paymentsCompleted : Nat
deriving Repr, DecidableEq

/-- The ledger state for one funnel UUID: the unique `paid_sessions` row (if
any), the unique `unpaid_sessions_with_email` row (if any), and today's
counters. -/
structure FunnelState where
  paidRow : Option PaidSessionRow
  unpaidRow : Option UnpaidSessionRow
  stats : SessionStats
deriving Repr, DecidableEq

/-- The state of a funnel UUID before `createPaidSession`: no row in either
table. -/
def emptyFunnelState : FunnelState :=
  { paidRow := none, unpaidRow := none, stats := ⟨0, 0, 0⟩ }

/-- db.js `incrementFirstMessage`: upsert of today's statistics row adding 1
to `first_messages_count`. -/
def incrementFirstMessage (st : SessionStats) : SessionStats :=
  { st with firstMessages := st.firstMessages + 1 }

/-- db.js `incrementEmailCollected`: upsert of today's statistics row adding
1 to `emails_collected_count`. -/
def incrementEmailCollected (st : SessionStats) : SessionStats :=
  { st with emailsCollected := st.emailsCollected + 1 }

/-- db.js `incrementPaymentCompleted`: upsert of today's statistics row
adding 1 to `payments_completed_count`. -/
def incrementPaymentCompleted (st : SessionStats) : SessionStats :=
  { st with paymentsCompleted := st.paymentsCompleted + 1 }

/-- db.js `createPaidSession`: `INSERT INTO paid_sessions (session_uuid,
thread_id)`; all other columns take their schema defaults.  The insert
violates `UNIQUE (session_uuid)` when a row for this UUID already exists. -/
def createPaidSession (threadId : String) (s : FunnelState) :
    Except String FunnelState :=
  match s.paidRow with
  | some _ => .error "duplicate key value violates unique constraint"
  | none =>
      .ok { s with
        paidRow := some
          { email := none, expertise := none, amount := 0, paid := false,
            paymentIntentId := none, threadId := threadId,
            questionnaireData := none, emailSent := false,
            firstMessageSent := false, messages := [] } }

/-- db.js `getPaidSession`: `SELECT ... FROM paid_sessions WHERE
session_uuid = $1` — no filter on `paid` or any migration marker. -/
def getPaidSession (s : FunnelState) : Option PaidSessionRow :=
  s.paidRow

/-- db.js `getUnpaidSession`: `SELECT * FROM unpaid_sessions_with_email
WHERE session_uuid = $1 AND moved_to_paid = FALSE`. -/
def getUnpaidSession (s : FunnelState) : Option UnpaidSessionRow :=
  match s.unpaidRow with
  | some r => if r.movedToPaid then none else some r
  | none => none

/-- db.js `markPaidSessionCompleted`: `UPDATE paid_sessions SET paid = TRUE,
paid_at = CURRENT_TIMESTAMP, email = COALESCE($email, email) WHERE
session_uuid = $1`; raises "Session non trouvée" when no row matches, and
on success always calls `incrementPaymentCompleted`. -/
def markPaidSessionCompleted (email : Option String) (s : FunnelState) :
    Except String FunnelState :=
  match s.paidRow with
  | none => .error "Session non trouvée"
  | some r =>
      .ok { s with
        paidRow := some { r with
          paid := true,
          email := match email with
            | some e => some e
            | none => r.email },
        stats := incrementPaymentCompleted s.stats }

/-- db.js `markPaidSessionFirstMessage`: conditional update `SET
first_message_sent = TRUE WHERE session_uuid = $1 AND first_message_sent =
FALSE`; `incrementFirstMessage` runs only when the update returned a row.
When no row matches (absent session or flag already set) the function
returns null without error. -/
def markPaidSessionFirstMessage (s : FunnelState) : FunnelState :=
  match s.paidRow with
  | some r =>
      if r.firstMessageSent then s
      else
        { s with
          paidRow := some { r with firstMessageSent := true },
          stats := incrementFirstMessage s.stats }
  | none => s

/-- db.js `updateUnpaidSessionEmail`: `UPDATE unpaid_sessions_with_email SET
email = $2, email_collected_at = ..., last_activity_at = ... WHERE
session_uuid = $1` (no `moved_to_paid` filter), then unconditionally calls
`incrementEmailCollected` — even when the update matched no row. -/
def updateUnpaidSessionEmail (email : String) (s : FunnelState) :
    FunnelState :=
  { s with
    unpaidRow := match s.unpaidRow with
      | some r => some { r with email := email }
      | none => none,
    stats := incrementEmailCollected s.stats }

/-- db.js `addPaidMessage`: `INSERT INTO paid_messages (session_id, role,
content)`, keyed by the internal id of this UUID's `paid_sessions` row. -/
def addPaidMessage (role content : String) (s : FunnelState) :
    Except String FunnelState :=
  match s.paidRow with
  | none => .error "insert or update violates foreign key constraint"
  | some r =>
      .ok { s with
        paidRow := some { r with messages := r.messages ++ [(role, content)] } }

/-- db.js `addUnpaidMessage`: `INSERT INTO unpaid_messages (session_id,
role, content)`, keyed by the internal id of this UUID's unpaid row. -/
def addUnpaidMessage (role content : String) (s : FunnelState) :
    Except String FunnelState :=
  match s.unpaidRow with
  | none => .error "insert or update violates foreign key constraint"
  | some r =>
      .ok { s with
        unpaidRow := some { r with messages := r.messages ++ [(role, content)] } }

/-- db.js `moveSessionToUnpaid`: reads the `paid_sessions` row (raising
"Session non trouvée dans paid_sessions" when absent), upserts a copy into
`unpaid_sessions_with_email` — `ON CONFLICT (session_uuid) DO UPDATE SET
email = EXCLUDED.email, email_collected_at = CURRENT_TIMESTAMP`, which in
particular does not reset `moved_to_paid` — and then copies every
`paid_messages` row of the session into `unpaid_messages`.  The source
neither marks nor deletes the `paid_sessions` row, and it never touches the
statistics counters. -/
def moveSessionToUnpaid (email : String) (s : FunnelState) :
    Except String FunnelState :=
  match getPaidSession s with
  | none => .error "Session non trouvée dans paid_sessions"
  | some p =>
      let upserted : UnpaidSessionRow :=
        match s.unpaidRow with
        | none =>
            { email := email, expertise := p.expertise, amount := p.amount,
              paymentIntentId := p.paymentIntentId, threadId := p.threadId,
              questionnaireData := p.questionnaireData,
              firstMessageSent := false, paymentAttempts := 0,
              movedToPaid := false, messages := [] }
        | some u => { u with email := email }
      .ok { s with
        unpaidRow := some { upserted with
          messages := upserted.messages ++ p.messages } }

/-- db.js `markUnpaidSessionAsMoved`: `UPDATE unpaid_sessions_with_email SET
moved_to_paid = TRUE, moved_at = CURRENT_TIMESTAMP WHERE session_uuid =
$1`. -/
def markUnpaidSessionAsMoved (s : FunnelState) : FunnelState :=
  { s with
    unpaidRow := match s.unpaidRow with
      | some u => some { u with movedToPaid := true }
      | none => none }

/-- db.js `migrateUnpaidToPaidSession`: returns false when
`getUnpaidSession` finds no eligible row; otherwise upserts the unpaid row
into `paid_sessions` with `paid = FALSE, paid_at = NULL` on insert — the
`ON CONFLICT (session_uuid) DO UPDATE` branch only overwrites `email`,
`expertise`, `amount` and `payment_intent_id`, leaving an existing `paid`
flag alone — copies all `unpaid_messages` into `paid_messages`, marks the
unpaid row moved, and returns true.  The inserted email is
`email || unpaidSession.email` (JavaScript falsiness). -/
def migrateUnpaidToPaidSession (email : Option String) (s : FunnelState) :
    FunnelState × Bool :=
  match getUnpaidSession s with
  | none => (s, false)
  | some u =>
      let newEmail := jsOrElse email u.email
      let upserted : PaidSessionRow :=
        match s.paidRow with
        | none =>
            { email := some newEmail, expertise := u.expertise,
              amount := u.amount, paid := false,
              paymentIntentId := u.paymentIntentId, threadId := u.threadId,
              questionnaireData := u.questionnaireData, emailSent := false,
              firstMessageSent := false, messages := [] }
        | some p =>
            { p with
              email := some newEmail
              expertise := u.expertise
              amount := u.amount
              paymentIntentId := u.paymentIntentId }
      let s1 := { s with
        paidRow := some { upserted with
          messages := upserted.messages ++ u.messages } }
      (markUnpaidSessionAsMoved s1, true)

/-- db.js `markEmailSent`: `UPDATE paid_sessions SET email_sent = TRUE,
email_sent_at = CURRENT_TIMESTAMP WHERE session_uuid = $1`; raises
"Session non trouvée" when no row matches. -/
def markEmailSent (s : FunnelState) : Except String FunnelState :=
  match s.paidRow with
  | none => .error "Session non trouvée"
  | some r => .ok { s with paidRow := some { r with emailSent := true } }

/-!
Funnel chat handler (paid-funnel questionnaire endpoint)

The handler receives `{ message, sessionId }`, rate-limits, loads the
`paid_sessions` row, runs email detection, calls the external assistant,
and persists the exchange.  `message.match(emailRegex)` is a pure function
of the message text; the embedding passes its result (`emailMatch`) in,
so a retried identical message carries an identical `emailMatch`.  The
external collaborators are passed in as outcomes: `rateOk` for the rate
limiter, `assistantAnswer` (`none` = the OpenAI call failed or timed out),
and `saveFails` for a storage error thrown by the first message insert of
the persistence block.
-/

/-- Email-detection step of the paid-funnel chat handler: on the first
regex match, when the `paid_sessions` row has no (JS-truthy) email, either
update the existing unpaid row's email in place (when `getUnpaidSession`
finds one) or move the session to the unpaid table. -/
def captureEmailStep (emailMatch : Option String) (session : PaidSessionRow)
    (s : FunnelState) : Except String FunnelState :=
  match emailMatch with
  | some extractedEmail =>
      if jsFalsyStr session.email then
        match getUnpaidSession s with
        | some _ => .ok (updateUnpaidSessionEmail extractedEmail s)
        | none => moveSessionToUnpaid extractedEmail s
      else .ok s
  | none => .ok s

/-- Message-persistence block of the paid-funnel chat handler: resolve the
session (unpaid table first, then paid) and append the user and assistant
turns.  The whole block is wrapped in try/catch — a storage error is
logged and deliberately not rethrown ("Ne pas bloquer la réponse si la
sauvegarde échoue"), so a failure leaves the response unaffected. -/
def saveFunnelMessages (saveFails : Bool) (message answer : String)
    (session : PaidSessionRow) (s : FunnelState) : FunnelState :=
  if saveFails then s
  else
    match getUnpaidSession s with
    | some u =>
        { s with
          unpaidRow := some { u with
            messages := u.messages ++ [("user", message), ("assistant", answer)] } }
    | none =>
        match s.paidRow with
        | some p =>
            { s with
              paidRow := some { p with
                messages := p.messages ++ [("user", message), ("assistant", answer)] } }
        | none =>
            let _ := session
            s

/-- Responses of the paid-funnel chat handler. -/
inductive FunnelChatResult where
  | badRequest (msg : String)
  | rateLimited
  | notFound
  | serverError (msg : String)
  | success (answer : String)
deriving Repr, DecidableEq

/-- The paid-funnel chat handler (POST body `{ message, sessionId }`),
after CORS and method checks: input validation, rate limiting, session
lookup, email detection, assistant call, message persistence, response. -/
def funnelChatHandler (message : String) (emailMatch : Option String)
    (rateOk : Bool) (assistantAnswer : Option String) (saveFails : Bool)
    (s : FunnelState) : FunnelChatResult × FunnelState :=
  if jsTrim message = "" then (.badRequest "Message is required", s)
  else if !rateOk then (.rateLimited, s)
  else
    match getPaidSession s with
    | none => (.notFound, s)
    | some session =>
        match captureEmailStep emailMatch session s with
        | .error e => (.serverError e, s)
        | .ok s1 =>
            match assistantAnswer with
            | none =>
                (.serverError "Erreur lors de la génération de la réponse. Veuillez réessayer.", s1)
            | some answer =>
                (.success answer, saveFunnelMessages saveFails message answer session s1)

/-!
Payment verification handler (src/api/verify-payment.js)

After CORS/method/parameter validation the handler loads the session,
checks the stored `payment_intent_id` against the request, short-circuits
when the session is already paid, re-verifies the intent status with the
payment processor (`stripeStatus` is the retrieved status), marks the
session completed, and attempts the analysis email (failures swallowed).
-/

/-- Responses of the payment verification handler. -/
inductive VerifyPaymentResult where
  | notFound
  | intentMismatch
  | alreadyPaid (expertise : Option String)
  | confirmed (emailSent : Bool)
  | notSucceeded (status : String)
  | serverError
deriving Repr, DecidableEq

/-- The payment verification handler core for a request
`{ sessionId, paymentIntentId }`; `emailSendOk` is the outcome of
`sendAnalysisEmail`. -/
def verifyPaymentHandler (paymentIntentId : String) (stripeStatus : String)
    (emailSendOk : Bool) (s : FunnelState) :
    VerifyPaymentResult × FunnelState :=
  match getPaidSession s with
  | none => (.notFound, s)
  | some session =>
      if session.paymentIntentId ≠ some paymentIntentId then
        (.intentMismatch, s)
      else if session.paid then
        (.alreadyPaid session.expertise, s)
      else if stripeStatus = "succeeded" then
        match markPaidSessionCompleted session.email s with
        | .error _ => (.serverError, s)
        | .ok s1 =>
            if jsFalsyStr session.email then (.confirmed false, s1)
            else if emailSendOk then
              match markEmailSent s1 with
              | .ok s2 => (.confirmed true, s2)
              | .error _ => (.serverError, s1)
            else (.confirmed false, s1)
      else (.notSucceeded stripeStatus, s)

/-!
Sequences of ledger transitions

The migration claims quantify over sequences of operations on one funnel
UUID.  A raised storage error in these operations occurs before any write
(`createPaidSession` fails on the unique constraint of its single INSERT;
`moveSessionToUnpaid` and the email-capture step only raise when the
`paid_sessions` row is absent, before touching the store), so an erroring
operation leaves the state unchanged.
-/

/-- The ledger transitions of the migration invariant: session creation,
the handler's email-capture step, and the unpaid-to-paid migration. -/
inductive FunnelOp where
  | createSession (threadId : String)
  | captureEmail (emailMatch : Option String)
  | migrateToPaid (email : Option String)
deriving Repr, DecidableEq

/-- Apply one ledger transition; a raised error leaves the store as it
was. -/
def applyFunnelOp (op : FunnelOp) (s : FunnelState) : FunnelState :=
  match op with
  | .createSession threadId =>
      match createPaidSession threadId s with
      | .ok s2 => s2
      | .error _ => s
  | .captureEmail emailMatch =>
      match getPaidSession s with
      | none => s
      | some session =>
          match captureEmailStep emailMatch session s with
          | .ok s2 => s2
          | .error _ => s
  | .migrateToPaid email => (migrateUnpaidToPaidSession email s).1

/-- Run a sequence of ledger transitions. -/
def runFunnelOps (ops : List FunnelOp) (s : FunnelState) : FunnelState :=
  ops.foldl (fun s op => applyFunnelOp op s) s

/-- Number of authoritative rows currently holding this funnel UUID: a
`paid_sessions` row (the code has no migration marker on that table, so
every paid row counts) plus an `unpaid_sessions_with_email` row with
`moved_to_paid = FALSE`. -/
def authoritativeRowCount (s : FunnelState) : Nat :=
  (match s.paidRow with | some _ => 1 | none => 0) +
    (match getUnpaidSession s with | some _ => 1 | none => 0)

/-!
Answer cache (db.js cache functions)

`hashQuestion` normalizes the question text (lowercase, trim, collapse
whitespace runs — `question.toLowerCase().trim().replace(/\s+/g, ' ')`),
UTF-8-encodes it, and hex-encodes its SHA-256 digest.  `Char.toLower`
models `String.prototype.toLowerCase` on the ASCII range.
-/

/-- The `replace(/\s+/g, ' ')` step: each maximal whitespace run becomes one space.
The flag records whether the previous character was part of a run. -/
def collapseWsAux : Bool → List Char → List Char
  | _, [] => []
  | prevWs, c :: rest =>
      if isJsWhitespace c then
        if prevWs then collapseWsAux true rest
        else ' ' :: collapseWsAux true rest
      else c :: collapseWsAux false rest

/-- The normalization step of db.js `hashQuestion`:
`question.toLowerCase().trim().replace(/\s+/g, ' ')`. -/
def normalizeQuestion (q : String) : String :=
  ⟨collapseWsAux false (trimJsChars (q.data.map Char.toLower))⟩

/-- UTF-8 encoding of one character (the `TextEncoder` step), as byte
values. -/
def utf8Bytes (c : Char) : List Nat :=
  let n := c.toNat
  if n < 0x80 then [n]
  else if n < 0x800 then [0xc0 + n / 64, 0x80 + n % 64]
  else if n < 0x10000 then
    [0xe0 + n / 4096, 0x80 + n / 64 % 64, 0x80 + n % 64]
  else
    [0xf0 + n / 262144, 0x80 + n / 4096 % 64, 0x80 + n / 64 % 64,
      0x80 + n % 64]

/-- UTF-8 encoding of a string as byte values. -/
def utf8Encode (s : String) : List Nat :=
  (s.data.map utf8Bytes).flatten

/-- Truncation to a 32-bit word. -/
def w32 (n : Nat) : Nat := n % 4294967296

/-- Right rotation of a 32-bit word by `n` places (0 < n < 32). -/
def rotr32 (n x : Nat) : Nat :=
  x / 2 ^ n + x % 2 ^ n * 2 ^ (32 - n)

/-- SHA-256 Σ0. -/
def bigSigma0 (x : Nat) : Nat := rotr32 2 x ^^^ rotr32 13 x ^^^ rotr32 22 x

/-- SHA-256 Σ1. -/
def bigSigma1 (x : Nat) : Nat := rotr32 6 x ^^^ rotr32 11 x ^^^ rotr32 25 x

/-- SHA-256 σ0. -/
def smallSigma0 (x : Nat) : Nat := rotr32 7 x ^^^ rotr32 18 x ^^^ x / 8

/-- SHA-256 σ1. -/
def smallSigma1 (x : Nat) : Nat := rotr32 17 x ^^^ rotr32 19 x ^^^ x / 1024

/-- SHA-256 Ch. -/
def sha256Ch (x y z : Nat) : Nat := x &&& y ^^^ (4294967295 - w32 x) &&& z

/-- SHA-256 Maj. -/
def sha256Maj (x y z : Nat) : Nat := x &&& y ^^^ x &&& z ^^^ y &&& z

/-- SHA-256 round constants. -/
def sha256K : List Nat :=
  [1116352408, 1899447441, 3049323471, 3921009573, 961987163,
   1508970993, 2453635748, 2870763221, 3624381080, 310598401,
   607225278, 1426881987, 1925078388, 2162078206, 2614888103,
   3248222580, 3835390401, 4022224774, 264347078, 604807628,
   770255983, 1249150122, 1555081692, 1996064986, 2554220882,
   2821834349, 2952996808, 3210313671, 3336571891, 3584528711,
   113926993, 338241895, 666307205, 773529912, 1294757372,
   1396182291, 1695183700, 1986661051, 2177026350, 2456956037,
   2730485921, 2820302411, 3259730800, 3345764771, 3516065817,
   3600352804, 4094571909, 275423344, 430227734, 506948616,
   659060556, 883997877, 958139571, 1322822218, 1537002063,
   1747873779, 1955562222, 2024104815, 2227730452, 2361852424,
   2428436474, 2756734187, 3204031479, 3329325298]

/-- SHA-256 initial hash value. -/
def sha256H0 : List Nat :=
  [1779033703, 3144134277, 1013904242, 2773480762,
   1359893119, 2600822924, 528734635, 1541459225]

/-- Assemble big-endian 32-bit words from bytes. -/
def bytesToWords : List Nat → List Nat
  | b0 :: b1 :: b2 :: b3 :: rest =>
      (((b0 * 256 + b1) * 256 + b2) * 256 + b3) :: bytesToWords rest
  | _ => []

/-- Big-endian bytes of a 32-bit word. -/
def wordToBytes (w : Nat) : List Nat :=
  [w / 16777216 % 256, w / 65536 % 256, w / 256 % 256, w % 256]

/-- Extend a 16-word block to the 64-word message schedule (`fuel` = number
of words still to append). -/
def extendSchedule : Nat → List Nat → List Nat
  | 0, w => w
  | n + 1, w =>
      let k := w.length
      let next := w32 (smallSigma1 (w.getD (k - 2) 0) + w.getD (k - 7) 0 +
        smallSigma0 (w.getD (k - 15) 0) + w.getD (k - 16) 0)
      extendSchedule n (w ++ [next])

/-- The eight SHA-256 working variables. -/
structure Sha256State where
  a : Nat
  b : Nat
  c : Nat
  d : Nat
  e : Nat
  f : Nat
  g : Nat
  h : Nat
deriving Repr, DecidableEq

/-- One SHA-256 compression round for a (round constant, schedule word)
pair. -/
def sha256Round (st : Sha256State) (kw : Nat × Nat) : Sha256State :=
  let t1 := w32 (st.h + bigSigma1 st.e + sha256Ch st.e st.f st.g + kw.1 + kw.2)
  let t2 := w32 (bigSigma0 st.a + sha256Maj st.a st.b st.c)
  { a := w32 (t1 + t2), b := st.a, c := st.b, d := st.c,
    e := w32 (st.d + t1), f := st.e, g := st.f, h := st.g }

/-- Compress one 64-byte chunk into the running hash value (8 words). -/
def sha256Compress (hs : List Nat) (chunk : List Nat) : List Nat :=
  let ws := extendSchedule 48 (bytesToWords chunk)
  let st0 : Sha256State :=
    ⟨hs.getD 0 0, hs.getD 1 0, hs.getD 2 0, hs.getD 3 0, hs.getD 4 0,
     hs.getD 5 0, hs.getD 6 0, hs.getD 7 0⟩
  let st := (sha256K.zip ws).foldl sha256Round st0
  [w32 (hs.getD 0 0 + st.a), w32 (hs.getD 1 0 + st.b),
   w32 (hs.getD 2 0 + st.c), w32 (hs.getD 3 0 + st.d),
   w32 (hs.getD 4 0 + st.e), w32 (hs.getD 5 0 + st.f),
   w32 (hs.getD 6 0 + st.g), w32 (hs.getD 7 0 + st.h)]

/-- SHA-256 padding: append 0x80, zero bytes up to 56 mod 64, then the
bit length as 8 big-endian bytes. -/
def sha256Pad (msg : List Nat) : List Nat :=
  let len := msg.length
  let zeros := (119 - len % 64) % 64
  let bits := len * 8
  msg ++ 0x80 :: List.replicate zeros 0 ++
    [bits / 2 ^ 56 % 256, bits / 2 ^ 48 % 256, bits / 2 ^ 40 % 256,
     bits / 2 ^ 32 % 256, bits / 2 ^ 24 % 256, bits / 2 ^ 16 % 256,
     bits / 2 ^ 8 % 256, bits % 256]

/-- Split a byte list into 64-byte chunks (`fuel` bounds the recursion). -/
def chunks64Aux : Nat → List Nat → List (List Nat)
  | 0, _ => []
  | _, [] => []
  | fuel + 1, l => l.take 64 :: chunks64Aux fuel (l.drop 64)

/-- Split a byte list into 64-byte chunks. -/
def chunks64 (l : List Nat) : List (List Nat) := chunks64Aux l.length l

/-- SHA-256 digest of a byte list, as 32 bytes. -/
def sha256Bytes (msg : List Nat) : List Nat :=
  (((chunks64 (sha256Pad msg)).foldl sha256Compress sha256H0).map
    wordToBytes).flatten

/-- Lowercase hex digit. -/
def hexChar (n : Nat) : Char :=
  Char.ofNat (if n < 10 then 48 + n else 87 + n)

/-- Two lowercase hex digits of one byte
(`b.toString(16).padStart(2, '0')`). -/
def byteToHex (b : Nat) : List Char := [hexChar (b / 16), hexChar (b % 16)]

/-- Lowercase hex string of a byte list. -/
def bytesToHex (bs : List Nat) : String := ⟨(bs.map byteToHex).flatten⟩

/-- db.js `hashQuestion`: hex-encoded SHA-256 digest of the UTF-8 bytes of
the normalized question text. -/
def hashQuestion (question : String) : String :=
  bytesToHex (sha256Bytes (utf8Encode (normalizeQuestion question)))

/-- One row of `chat_cache` (db.js `createCacheTable`); `hit_count` defaults
to 1 and `expires_at` to creation time + 30 days.  Time is an abstract
`Nat` instant (`CURRENT_TIMESTAMP` = the `now` argument of each
operation). -/
structure CacheEntry where
  questionHash : String
  questionText : String
  answerText : String
  hitCount : Nat
  createdAt : Nat
  lastAccessedAt : Nat
  expiresAt : Nat
deriving Repr, DecidableEq

/-- The `chat_cache` table (`question_hash` is UNIQUE). -/
abbrev CacheState := List CacheEntry

/-- The 30-day TTL of `expires_at`, in seconds. -/
def cacheTtl : Nat := 30 * 24 * 60 * 60

/-- What db.js `getCachedAnswer` returns on a hit: the cached answer and
the post-increment hit count (`cached: true` is implied by `some`). -/
structure CacheHit where
  answer : String
  hitCount : Nat
deriving Repr, DecidableEq

/-- db.js `getCachedAnswer`: select the non-expired row for the question's
hash; on a hit also increment `hit_count` and touch `last_accessed_at` (a
side-effecting read); any error is caught and the function returns null so
the caller bypasses the cache ("En cas d'erreur, on retourne null pour
bypass le cache"). -/
def getCachedAnswer (err : Bool) (now : Nat) (cache : CacheState)
    (question : String) : Option CacheHit × CacheState :=
  if err then (none, cache)
  else
    let h := hashQuestion question
    match cache.find? (fun e => e.questionHash = h && now < e.expiresAt) with
    | none => (none, cache)
    | some e =>
        (some ⟨e.answerText, e.hitCount + 1⟩,
          cache.map fun e2 =>
            if e2.questionHash = h then
              { e2 with hitCount := e2.hitCount + 1
                        lastAccessedAt := now }
            else e2)

/-- db.js `saveCachedAnswer`: upsert on `question_hash` — on conflict
overwrite the answer, increment `hit_count` and touch `last_accessed_at`;
any error is caught and swallowed ("Ne pas bloquer si le cache échoue"). -/
def saveCachedAnswer (err : Bool) (now : Nat) (cache : CacheState)
    (question answer : String) : CacheState :=
  if err then cache
  else
    let h := hashQuestion question
    if cache.any (fun e => e.questionHash = h) then
      cache.map fun e =>
        if e.questionHash = h then
          { e with answerText := answer
                   hitCount := e.hitCount + 1
                   lastAccessedAt := now }
        else e
    else
      cache ++ [{ questionHash := h
                  questionText := question
                  answerText := answer
                  hitCount := 1
                  createdAt := now
                  lastAccessedAt := now
                  expiresAt := now + cacheTtl }]

/-!
Free-tier chat handler (src/api/chat.js)

Cookie values arrive parsed (`qUsed` from the `q_used` cookie, default 0;
`registered` from the `registered` cookie).  External outcomes are passed
in: `rateOk` (rate limiter), `hasApiKey`, `assistantAnswer` (`none` = the
OpenAI completion call returned a non-ok status), and the cache error
flags.
-/

/-- Responses of the free-tier chat handler. -/
inductive ChatResult where
  | badRequest
  | rateLimited
  | needSignup (qUsed : Nat)
  | missingConfig
  | upstreamError
  | success (answer : String) (fromCache : Bool) (newQUsed : Nat)
deriving Repr, DecidableEq

/-- Which external effects the free-tier handler performed. -/
structure ChatEffects where
  cacheLookups : Nat
  assistantCalls : Nat
deriving Repr, DecidableEq

/-- The free-tier chat handler, after CORS and method checks: message
validation, rate limiting, quota check (`!registered && qUsed >= 2` →
"please register" signal with HTTP 200), cache lookup, assistant call on a
miss, cache store, quota-cookie update. -/
def chatHandler (message : String) (qUsed : Nat) (registered : Bool)
    (rateOk : Bool) (hasApiKey : Bool) (cacheErr : Bool) (saveErr : Bool)
    (now : Nat) (assistantAnswer : Option String) (cache : CacheState) :
    ChatResult × CacheState × ChatEffects :=
  if jsTrim message = "" then (.badRequest, cache, ⟨0, 0⟩)
  else if !rateOk then (.rateLimited, cache, ⟨0, 0⟩)
  else if !registered && 2 ≤ qUsed then (.needSignup qUsed, cache, ⟨0, 0⟩)
  else if !hasApiKey then (.missingConfig, cache, ⟨0, 0⟩)
  else
    let newQUsed := if registered then qUsed else qUsed + 1
    match getCachedAnswer cacheErr now cache message with
    | (some hit, cache1) => (.success hit.answer true newQUsed, cache1, ⟨1, 0⟩)
    | (none, cache1) =>
        match assistantAnswer with
        | none => (.upstreamError, cache1, ⟨1, 1⟩)
        | some answer =>
            (.success answer false newQUsed,
              saveCachedAnswer saveErr now cache1 message answer, ⟨1, 1⟩)

/-!
Identity store (db.js user functions)
-/

/-- One row of `users` (db.js `createUsersTable`), in the camelCase shape
returned by `findUserByEmail`. -/
structure User where
  id : Nat
  firstName : String
  lastName : String
  email : String
  passwordHash : Option String
  registeredAt : Nat
  subscriptionStatus : String
  questionsUsed : Nat
deriving Repr, DecidableEq

/-- The record shape `verifyUserPassword` returns on success: the
`findUserByEmail` record with the `passwordHash` field destructured away
("Ne pas retourner le hash"). -/
structure AuthenticatedUser where
  id : Nat
  firstName : String
  lastName : String
  email : String
  registeredAt : Nat
  subscriptionStatus : String
  questionsUsed : Nat
deriving Repr, DecidableEq

/-- The `{ passwordHash, ...userWithoutPassword }` destructuring. -/
def removePasswordHash (u : User) : AuthenticatedUser :=
  { id := u.id, firstName := u.firstName, lastName := u.lastName,
    email := u.email, registeredAt := u.registeredAt,
    subscriptionStatus := u.subscriptionStatus,
    questionsUsed := u.questionsUsed }

/-- db.js `findUserByEmail`: `SELECT * FROM users WHERE email = $1
LIMIT 1`. -/
def findUserByEmail (users : List User) (email : String) : Option User :=
  users.find? fun u => u.email = email

/-- db.js `verifyUserPassword`: null when the user is absent or has a
JS-falsy stored hash, null when `bcrypt.compare` rejects, otherwise the
user record without the hash.  `compare` is the `bcrypt.compare`
collaborator, `compare password storedHash`. -/
def verifyUserPassword (compare : String → String → Bool)
    (users : List User) (email password : String) :
    Option AuthenticatedUser :=
  match findUserByEmail users email with
  | none => none
  | some user =>
      match user.passwordHash with
      | none => none
      | some storedHash =>
          if storedHash = "" then none
          else if compare password storedHash then
            some (removePasswordHash user)
          else none

/-!
Theorems
-/

/-- A freshly created funnel session row, as inserted by
`createPaidSession` with payment setup recorded. -/
def sampleSession : PaidSessionRow :=
  { email := none, expertise := some "classique", amount := 2900,
    paid := false, paymentIntentId := some "pi_123", threadId := "thread_abc",
    questionnaireData := none, emailSent := false, firstMessageSent := false,
    messages := [] }

/-- A ledger state holding only `sampleSession`. -/
def sampleState : FunnelState :=
  { paidRow := some sampleSession, unpaidRow := none, stats := ⟨0, 0, 0⟩ }

/-- No ledger transition ever removes the `paid_sessions` row of a funnel
UUID: nothing in the source deletes it or marks it migrated. -/
theorem applyFunnelOp_preserves_paidRow (op : FunnelOp) (s : FunnelState)
    (h : s.paidRow.isSome) : (applyFunnelOp op s).paidRow.isSome := by
  cases op with
  | createSession threadId =>
      cases hp : s.paidRow with
      | none => simp [applyFunnelOp, createPaidSession, hp]
      | some p => simp [applyFunnelOp, createPaidSession, hp]
  | captureEmail emailMatch =>
      cases hp : s.paidRow with
      | none => simp [hp] at h
      | some p =>
          cases emailMatch with
          | none => simp [applyFunnelOp, captureEmailStep, getPaidSession, hp]
          | some e =>
              by_cases hf : jsFalsyStr p.email
              · cases hu : getUnpaidSession s with
                | none =>
                    simp [applyFunnelOp, captureEmailStep, getPaidSession, hp,
                      hf, hu, moveSessionToUnpaid]
                | some u =>
                    simp [applyFunnelOp, captureEmailStep, getPaidSession, hp,
                      hf, hu, updateUnpaidSessionEmail]
              · simp [applyFunnelOp, captureEmailStep, getPaidSession, hp, hf]
  | migrateToPaid email =>
      cases hu : getUnpaidSession s with
      | none => simpa [applyFunnelOp, migrateUnpaidToPaidSession, hu] using h
      | some u =>
          simp [applyFunnelOp, migrateUnpaidToPaidSession, hu,
            markUnpaidSessionAsMoved]

/-- The `paid_sessions` row survives any sequence of ledger transitions. -/
theorem runFunnelOps_preserves_paidRow (ops : List FunnelOp)
    (s : FunnelState) (h : s.paidRow.isSome) :
    (runFunnelOps ops s).paidRow.isSome := by
  induction ops generalizing s with
  | nil => simpa [runFunnelOps] using h
  | cons op rest ih =>
      have h1 := applyFunnelOp_preserves_paidRow op s h
      simpa [runFunnelOps] using ih (applyFunnelOp op s) h1

/-- A state with a `paid_sessions` row has at least one authoritative
row. -/
theorem one_le_authoritativeRowCount (s : FunnelState)
    (h : s.paidRow.isSome) : 1 ≤ authoritativeRowCount s := by
  unfold authoritativeRowCount
  cases hp : s.paidRow with
  | none => simp [hp] at h
  | some p => simp

/-- There are never more than two candidate rows for one UUID (one slot
per table, by the unique constraints). -/
theorem authoritativeRowCount_le_two (s : FunnelState) :
    authoritativeRowCount s ≤ 2 := by
  unfold authoritativeRowCount
  cases s.paidRow <;> cases getUnpaidSession s <;> simp

/-- C1 counterexample: after `createFunnelSession` followed by one email
capture, the UUID resolves to TWO authoritative rows — the `paid_sessions`
row (which `moveSessionToUnpaid` copies but never marks migrated; the
table has no migration marker at all) and the fresh
`unpaid_sessions_with_email` row with `moved_to_paid = FALSE` — refuting
"exactly one ... never both". -/
theorem migration_invariant_counterexample :
    authoritativeRowCount (runFunnelOps
      [FunnelOp.createSession "thread_abc",
       FunnelOp.captureEmail (some "jean@example.com")] emptyFunnelState) = 2 := by
  decide

/-- C1 (amended): for every funnel UUID, after `createFunnelSession` and
any sequence of email-capture and unpaid-to-paid migration operations, the
number of authoritative rows is between one and two — never zero (the
`paid_sessions` row always persists), but not always exactly one (it is
two from email capture until migration marks the unpaid row moved). -/
theorem migration_rows_bounded (ops : List FunnelOp) (threadId : String) :
    1 ≤ authoritativeRowCount (runFunnelOps ops
        (applyFunnelOp (.createSession threadId) emptyFunnelState)) ∧
    authoritativeRowCount (runFunnelOps ops
        (applyFunnelOp (.createSession threadId) emptyFunnelState)) ≤ 2 := by
  constructor
  · apply one_le_authoritativeRowCount
    apply runFunnelOps_preserves_paidRow
    simp [applyFunnelOp, createPaidSession, emptyFunnelState]
  · apply authoritativeRowCount_le_two

/-- C2: evaluation of the email-capture path at the failing inputs.  The
first capture of `jean@example.com` routes through `moveSessionToUnpaid`,
which never calls `incrementEmailCollected` — the daily counter stays 0
where the claim requires 1.  Each retried capture routes through
`updateUnpaidSessionEmail`, which increments unconditionally — after two
retries the counter is 2 where the claim requires 1.  Only the "no second
UnpaidSession row" part holds (the upsert updates the single row in
place). -/
theorem emailCapture_counter_evaluation :
    (runFunnelOps [FunnelOp.createSession "thread_abc",
        FunnelOp.captureEmail (some "jean@example.com")]
      emptyFunnelState).stats.emailsCollected = 0 ∧
    (runFunnelOps [FunnelOp.createSession "thread_abc",
        FunnelOp.captureEmail (some "jean@example.com"),
        FunnelOp.captureEmail (some "jean@example.com"),
        FunnelOp.captureEmail (some "jean@example.com")]
      emptyFunnelState).stats.emailsCollected = 2 ∧
    ((runFunnelOps [FunnelOp.createSession "thread_abc",
        FunnelOp.captureEmail (some "jean@example.com"),
        FunnelOp.captureEmail (some "jean@example.com"),
        FunnelOp.captureEmail (some "jean@example.com")]
      emptyFunnelState).unpaidRow.map UnpaidSessionRow.email
        = some "jean@example.com") := by
  refine ⟨by decide, by decide, by decide⟩

/-- C3: for a known session whose stored `payment_intent_id` matches the
request and whose payment has not yet been confirmed, verifying the
payment twice in a row (duplicate webhook/client confirmation) leaves
`paid = true`, increments the payment-completed daily counter exactly
once, and the second call short-circuits successfully as already-paid
(HTTP 200) instead of erroring. -/
theorem confirmPayment_idempotent (s : FunnelState) (r : PaidSessionRow)
    (pid : String) (sendOk1 sendOk2 : Bool) (hrow : s.paidRow = some r)
    (hpid : r.paymentIntentId = some pid) (hnotpaid : r.paid = false) :
    ((verifyPaymentHandler pid "succeeded" sendOk2
        (verifyPaymentHandler pid "succeeded" sendOk1 s).2).2.paidRow.map
      PaidSessionRow.paid = some true) ∧
    ((verifyPaymentHandler pid "succeeded" sendOk2
        (verifyPaymentHandler pid "succeeded" sendOk1 s).2).2.stats.paymentsCompleted
      = s.stats.paymentsCompleted + 1) ∧
    ((verifyPaymentHandler pid "succeeded" sendOk2
        (verifyPaymentHandler pid "succeeded" sendOk1 s).2).1
      = VerifyPaymentResult.alreadyPaid r.expertise) := by
  have hemail : (match r.email with
      | some e => some e
      | none => r.email) = r.email := by
    cases r.email <;> rfl
  by_cases hf : jsFalsyStr r.email
  · simp [verifyPaymentHandler, getPaidSession, hrow, hpid, hnotpaid,
      markPaidSessionCompleted, hemail, hf, incrementPaymentCompleted]
  · cases sendOk1 with
    | false =>
        simp [verifyPaymentHandler, getPaidSession, hrow, hpid, hnotpaid,
          markPaidSessionCompleted, hemail, hf, incrementPaymentCompleted]
    | true =>
        simp [verifyPaymentHandler, getPaidSession, hrow, hpid, hnotpaid,
          markPaidSessionCompleted, hemail, hf, incrementPaymentCompleted,
          markEmailSent]

/-- Witness for `confirmPayment_idempotent` at a concrete session. -/
theorem confirmPayment_idempotent_witness :
    ((verifyPaymentHandler "pi_123" "succeeded" true
        (verifyPaymentHandler "pi_123" "succeeded" true sampleState).2).2.paidRow.map
      PaidSessionRow.paid = some true) ∧
    ((verifyPaymentHandler "pi_123" "succeeded" true
        (verifyPaymentHandler "pi_123" "succeeded" true sampleState).2).2.stats.paymentsCompleted
      = sampleState.stats.paymentsCompleted + 1) ∧
    ((verifyPaymentHandler "pi_123" "succeeded" true
        (verifyPaymentHandler "pi_123" "succeeded" true sampleState).2).1
      = VerifyPaymentResult.alreadyPaid sampleSession.expertise) :=
  confirmPayment_idempotent sampleState sampleSession "pi_123" true true
    rfl rfl rfl

/-- C4 counterexample: a session whose stored email is
`alice@example.com`, confirmed with the different argument
`bob@example.org`, ends up storing `bob@example.org` — the
`COALESCE($email, email)` in `markPaidSessionCompleted` lets a non-null
argument overwrite the existing email, refuting "the stored email is left
unchanged". -/
theorem confirmPayment_email_counterexample :
    ((match markPaidSessionCompleted (some "bob@example.org")
        { paidRow := some { sampleSession with email := some "alice@example.com" },
          unpaidRow := none, stats := ⟨0, 0, 0⟩ } with
      | .ok s1 => s1.paidRow.map PaidSessionRow.email
      | .error _ => none) = some (some "bob@example.org")) ∧
    ((match markPaidSessionCompleted (some "bob@example.org")
        { paidRow := some { sampleSession with email := some "alice@example.com" },
          unpaidRow := none, stats := ⟨0, 0, 0⟩ } with
      | .ok s1 => s1.paidRow.map PaidSessionRow.email
      | .error _ => none) ≠ some (some "alice@example.com")) := by
  refine ⟨by decide, by decide⟩

/-- C4 (amended): `markPaidSessionCompleted` gives the provided email
precedence — a non-null email argument overwrites whatever is stored,
and the stored email is kept only when the argument is null. -/
theorem confirmPayment_email_precedence (s : FunnelState)
    (r : PaidSessionRow) (e : String) (hrow : s.paidRow = some r) :
    (((markPaidSessionCompleted (some e) s).toOption.bind
        FunnelState.paidRow).map PaidSessionRow.email = some (some e)) ∧
    (((markPaidSessionCompleted none s).toOption.bind
        FunnelState.paidRow).map PaidSessionRow.email = some r.email) := by
  simp [markPaidSessionCompleted, hrow, Except.toOption]

/-- Witness for `confirmPayment_email_precedence` at a concrete session. -/
theorem confirmPayment_email_precedence_witness :
    (((markPaidSessionCompleted (some "bob@example.org") sampleState).toOption.bind
        FunnelState.paidRow).map PaidSessionRow.email = some (some "bob@example.org")) ∧
    (((markPaidSessionCompleted none sampleState).toOption.bind
        FunnelState.paidRow).map PaidSessionRow.email = some sampleSession.email) :=
  confirmPayment_email_precedence sampleState sampleSession "bob@example.org" rfl

/-- C5: on a session whose first-message flag is still false, calling
`markPaidSessionFirstMessage` three times sets the flag exactly once and
increments the first-message daily counter exactly once — the second and
third calls fail the `first_message_sent = FALSE` guard and do not
increment. -/
theorem markFirstMessage_exactly_once (s : FunnelState)
    (r : PaidSessionRow) (hrow : s.paidRow = some r)
    (hflag : r.firstMessageSent = false) :
    ((markPaidSessionFirstMessage (markPaidSessionFirstMessage
        (markPaidSessionFirstMessage s))).paidRow.map
      PaidSessionRow.firstMessageSent = some true) ∧
    ((markPaidSessionFirstMessage (markPaidSessionFirstMessage
        (markPaidSessionFirstMessage s))).stats.firstMessages
      = s.stats.firstMessages + 1) := by
  simp [markPaidSessionFirstMessage, hrow, hflag, incrementFirstMessage]

/-- Witness for `markFirstMessage_exactly_once` at a concrete session. -/
theorem markFirstMessage_exactly_once_witness :
    ((markPaidSessionFirstMessage (markPaidSessionFirstMessage
        (markPaidSessionFirstMessage sampleState))).paidRow.map
      PaidSessionRow.firstMessageSent = some true) ∧
    ((markPaidSessionFirstMessage (markPaidSessionFirstMessage
        (markPaidSessionFirstMessage sampleState))).stats.firstMessages
      = sampleState.stats.firstMessages + 1) :=
  markFirstMessage_exactly_once sampleState sampleSession rfl rfl

/-- The email-capture step cannot raise once the handler has loaded the
`paid_sessions` row: `moveSessionToUnpaid` only raises when that row is
absent. -/
theorem captureEmailStep_ok (emailMatch : Option String)
    (session p : PaidSessionRow) (s : FunnelState)
    (hrow : s.paidRow = some p) :
    ∃ s1, captureEmailStep emailMatch session s = .ok s1 := by
  cases emailMatch with
  | none => exact ⟨s, rfl⟩
  | some e =>
      by_cases hf : jsFalsyStr session.email
      · cases hu : getUnpaidSession s with
        | some u =>
            exact ⟨updateUnpaidSessionEmail e s,
              by simp [captureEmailStep, hf, hu]⟩
        | none =>
            simp [captureEmailStep, hf, hu, moveSessionToUnpaid,
              getPaidSession, hrow]
      · exact ⟨s, by simp [captureEmailStep, hf]⟩

/-- C6 counterexample: a funnel message request whose message-persistence
ledger writes fail (`saveFails = true`) still completes with a success
response — the storage error is caught and only logged, refuting "every
ledger mutation that fails ... propagates to the caller as a typed
error". -/
theorem ledger_failure_swallowed_counterexample :
    (funnelChatHandler "bonjour" none true (some "Bienvenue") true
      sampleState).1 = FunnelChatResult.success "Bienvenue" := by
  decide

/-- C6 (amended): ledger failures in the message-persistence block of the
funnel message handler are caught and logged, and the request still
completes successfully with the assistant's answer; only ledger failures
raised before that block (session lookup, email capture) propagate. -/
theorem saveFailure_not_propagated (message : String)
    (emailMatch : Option String) (answer : String) (s : FunnelState)
    (r : PaidSessionRow) (saveFails : Bool) (hrow : s.paidRow = some r)
    (hmsg : jsTrim message ≠ "") :
    (funnelChatHandler message emailMatch true (some answer) saveFails s).1
      = FunnelChatResult.success answer := by
  obtain ⟨s1, hok⟩ := captureEmailStep_ok emailMatch r r s hrow
  simp [funnelChatHandler, hmsg, getPaidSession, hrow, hok]

/-- Witness for `saveFailure_not_propagated` with failing persistence. -/
theorem saveFailure_not_propagated_witness :
    (funnelChatHandler "bonjour" (some "jean@example.com") true
      (some "Bienvenue") true sampleState).1
      = FunnelChatResult.success "Bienvenue" :=
  saveFailure_not_propagated "bonjour" (some "jean@example.com")
    "Bienvenue" sampleState sampleSession true rfl (by decide)

/-- C7: once the rate limiter admits the request, an unregistered visitor
whose quota cookie already shows 2 (or more) questions used gets the
structured "please register" response (HTTP 200, `needSignup`) with no
cache lookup and no assistant call and no cache mutation; a registered
visitor is never answered with `needSignup`, whatever the quota cookie
says. -/
theorem quota_enforcement (message : String) (qUsed : Nat)
    (rateOk hasApiKey cacheErr saveErr : Bool) (now : Nat)
    (assistantAnswer : Option String) (cache : CacheState)
    (hmsg : jsTrim message ≠ "") :
    (2 ≤ qUsed →
      chatHandler message qUsed false true hasApiKey cacheErr saveErr now
          assistantAnswer cache
        = (.needSignup qUsed, cache, ⟨0, 0⟩)) ∧
    (∀ n, (chatHandler message qUsed true rateOk hasApiKey cacheErr saveErr
        now assistantAnswer cache).1 ≠ ChatResult.needSignup n) := by
  constructor
  · intro hq
    simp [chatHandler, hmsg, hq]
  · intro n
    unfold chatHandler
    rw [if_neg hmsg]
    cases rateOk with
    | false => simp
    | true =>
        cases hasApiKey with
        | false => simp
        | true =>
            simp only [Bool.not_true, Bool.false_and, Bool.and_self,
              if_false, ite_false, Bool.false_eq_true]
            rcases hca : getCachedAnswer cacheErr now cache message with
              ⟨hit, cache1⟩
            cases hit with
            | some h2 => simp [hca]
            | none =>
                cases assistantAnswer with
                | none => simp [hca]
                | some ans => simp [hca]

/-- Witness for `quota_enforcement`: third free question of an
unregistered visitor. -/
theorem quota_enforcement_witness :
    chatHandler "bonjour" 2 false true true false false 0 none []
      = (.needSignup 2, [], ⟨0, 0⟩) :=
  (quota_enforcement "bonjour" 2 true true false false 0 none []
    (by decide)).1 (by decide)

/-- C8: a cache failure never blocks the funnel — an erroring lookup
returns the miss value (null) with the store untouched instead of
propagating, an erroring store returns normally, and a quota-passing
free-tier request with both cache operations failing still reaches the
live assistant and succeeds with its answer. -/
theorem cache_failure_falls_through (message answer : String) (qUsed : Nat)
    (registered : Bool) (now : Nat) (cache : CacheState)
    (hmsg : jsTrim message ≠ "") (hquota : registered = true ∨ qUsed < 2) :
    (getCachedAnswer true now cache message = (none, cache)) ∧
    (saveCachedAnswer true now cache message answer = cache) ∧
    ((chatHandler message qUsed registered true true true true now
        (some answer) cache).1
      = ChatResult.success answer false
          (if registered then qUsed else qUsed + 1)) := by
  refine ⟨rfl, rfl, ?_⟩
  rcases hquota with h | h
  · simp [chatHandler, hmsg, h, getCachedAnswer, saveCachedAnswer]
  · have h2 : ¬ 2 ≤ qUsed := Nat.not_le.mpr h
    simp [chatHandler, hmsg, h2, getCachedAnswer, saveCachedAnswer]

/-- Witness for `cache_failure_falls_through`: both cache operations fail
on an unregistered visitor's first question. -/
theorem cache_failure_falls_through_witness :
    (getCachedAnswer true 0 [] "bonjour" = (none, [])) ∧
    (saveCachedAnswer true 0 [] "bonjour" "réponse" = []) ∧
    ((chatHandler "bonjour" 0 false true true true true 0
        (some "réponse") []).1 = ChatResult.success "réponse" false 1) :=
  cache_failure_falls_through "bonjour" "réponse" 0 false 0 []
    (by decide) (.inr (by decide))

/-- C9: the question hash is a deterministic function of the lowercased,
trimmed, whitespace-collapsed question text — any two question strings
with the same normalization (differing only in letter case,
leading/trailing whitespace, or internal whitespace runs) hash
identically and therefore address the same `chat_cache` row. -/
theorem hashQuestion_respects_normalization (q1 q2 : String)
    (h : normalizeQuestion q1 = normalizeQuestion q2) :
    hashQuestion q1 = hashQuestion q2 := by
  simp [hashQuestion, h]

/-- Witness for `hashQuestion_respects_normalization` on the spec's three
example phrasings. -/
theorem hashQuestion_respects_normalization_witness :
    (normalizeQuestion "What about alimony?"
        = normalizeQuestion "what about alimony?  " ∧
      normalizeQuestion "What about alimony?"
        = normalizeQuestion "What  about   alimony?") ∧
    (hashQuestion "What about alimony?"
        = hashQuestion "what about alimony?  " ∧
      hashQuestion "What about alimony?"
        = hashQuestion "What  about   alimony?") :=
  ⟨⟨by decide, by decide⟩,
    hashQuestion_respects_normalization _ _ (by decide),
    hashQuestion_respects_normalization _ _ (by decide)⟩

/-- C10: authentication returns either null or the found user record with
the `passwordHash` field removed (the result type `AuthenticatedUser` has
no hash field), and the null result is the identical value `none` whether
the email is unknown, the user has no (JS-truthy) stored hash, or the
password comparison fails. -/
theorem verifyUserPassword_never_leaks_hash
    (compare : String → String → Bool) (users : List User)
    (email password : String) :
    (verifyUserPassword compare users email password = none ∨
      ∃ u, findUserByEmail users email = some u ∧
        verifyUserPassword compare users email password
          = some (removePasswordHash u)) ∧
    (findUserByEmail users email = none →
      verifyUserPassword compare users email password = none) ∧
    (∀ u, findUserByEmail users email = some u →
      jsFalsyStr u.passwordHash = true →
      verifyUserPassword compare users email password = none) ∧
    (∀ u storedHash, findUserByEmail users email = some u →
      u.passwordHash = some storedHash → storedHash ≠ "" →
      compare password storedHash = false →
      verifyUserPassword compare users email password = none) := by
  refine ⟨?_, ?_, ?_, ?_⟩
  · cases hf : findUserByEmail users email with
    | none => exact .inl (by simp [verifyUserPassword, hf])
    | some u =>
        cases hp : u.passwordHash with
        | none => exact .inl (by simp [verifyUserPassword, hf, hp])
        | some storedHash =>
            by_cases he : storedHash = ""
            · exact .inl (by simp [verifyUserPassword, hf, hp, he])
            · by_cases hc : compare password storedHash
              · exact .inr ⟨u, rfl,
                  by simp [verifyUserPassword, hf, hp, he, hc]⟩
              · exact .inl (by simp [verifyUserPassword, hf, hp, he, hc])
  · intro hf
    simp [verifyUserPassword, hf]
  · intro u hf hfalsy
    cases hp : u.passwordHash with
    | none => simp [verifyUserPassword, hf, hp]
    | some storedHash =>
        have he : storedHash = "" := by
          simpa [jsFalsyStr, hp] using hfalsy
        simp [verifyUserPassword, hf, hp, he]
  · intro u storedHash hf hp he hc
    simp [verifyUserPassword, hf, hp, he, hc]

/-- Witness for `verifyUserPassword_never_leaks_hash`: an unknown email
authenticates to null. -/
theorem verifyUserPassword_never_leaks_hash_witness :
    verifyUserPassword (fun _ _ => true) [] "nobody@example.com" "pw"
      = none :=
  (verifyUserPassword_never_leaks_hash (fun _ _ => true) []
    "nobody@example.com" "pw").2.1 rfl
